import Mathlib

/-!
Verification of the TMS imagery-provider configuration resolver
(`TileMapServiceImageryProvider.js`): the metadata resolution performed by
`metadataSuccess` / `metadataFailure` and the tile address computation of
`buildImageUrl`, shallowly embedded over rational coordinates.

Numbers: coordinates are embedded as rationals.  The degree-to-radian
conversion of the external collaborator `CesiumMath.toRadians` multiplies by
pi over 180; pi is replaced here by a fixed positive rational approximation,
which is faithful to every structural and ordering property proved below
(none depends on the numeric value of the factor, only on it being a fixed
positive constant applied uniformly).
-/

namespace TMS

/-- Geographic or projected rectangle, constructor argument order matching
`new Rectangle(west, south, east, north)`. -/
structure Rectangle where
  west : ℚ
  south : ℚ
  east : ℚ
  north : ℚ
deriving DecidableEq, Repr

/-- Geographic position, as in `Cartographic` (longitude, latitude). -/
structure Cartographic where
  longitude : ℚ
  latitude : ℚ
deriving DecidableEq, Repr

/-- Rational stand-in for pi (see the file header). -/
def piApprox : ℚ := 3.14159265358979

/-- Modelled from the spec: `CesiumMath.toRadians` (external collaborator),
degrees times pi over 180, with the rational stand-in for pi. -/
def toRadians (degrees : ℚ) : ℚ := degrees * piApprox / 180

/-- Modelled from the spec: `Cartographic.fromDegrees(longitude, latitude)`
(external collaborator), converting both coordinates from degrees to
radians. -/
def Cartographic.fromDegrees (longitude latitude : ℚ) : Cartographic :=
  ⟨toRadians longitude, toRadians latitude⟩

/-- Shape parameter passed through to a default tiling scheme constructor;
its content is irrelevant to the resolver logic. -/
structure Ellipsoid where
  radius : ℚ
deriving DecidableEq, Repr

/-- The TilingScheme abstraction consumed by the resolver (external
collaborator): a fixed bounding rectangle, the projection inverse, the
position-to-tile-index function, the row-count-at-level function, and
whether the instance is a `GeographicTilingScheme` (the `instanceof` test
used by the source). -/
structure TilingScheme where
  rectangle : Rectangle
  isGeographic : Bool
  unproject : ℚ × ℚ → Cartographic
  positionToTileXY : Cartographic → Int → Int × Int
  getNumberOfYTilesAtLevel : Int → Int

/-- Constructors of the two default tiling schemes (external collaborators
`GeographicTilingScheme` / `WebMercatorTilingScheme` from Core), taking the
optional ellipsoid option, kept abstract as an environment. -/
structure SchemeEnv where
  mkGeographicScheme : Option Ellipsoid → TilingScheme
  mkWebMercatorScheme : Option Ellipsoid → TilingScheme

/-- Caller-supplied constructor options (the overrides), each optional,
mirroring the fields copied onto the provider before metadata resolution. -/
structure ProviderOptions where
  fileExtension : Option String := none
  tileWidth : Option Int := none
  tileHeight : Option Int := none
  minimumLevel : Option Int := none
  maximumLevel : Option Int := none
  rectangle : Option Rectangle := none
  tilingScheme : Option TilingScheme := none
  ellipsoid : Option Ellipsoid := none

/-- The TileFormat node of the capabilities document, attributes already
parsed (`extension`, `width`, `height`). -/
structure TileFormatNode where
  extension : String
  width : Int
  height : Int
deriving DecidableEq, Repr

/-- The BoundingBox node of the capabilities document, attributes already
parsed (`minx`, `miny`, `maxx`, `maxy`). -/
structure BBoxNode where
  minx : ℚ
  miny : ℚ
  maxx : ℚ
  maxy : ℚ
deriving DecidableEq, Repr

/-- The TileSets container node: its `profile` attribute and the `order`
attributes of its TileSet children, in document order. -/
structure TilesetsNode where
  profile : String
  orders : List Int
deriving DecidableEq, Repr

/-- The parsed subset of the capabilities document consumed by
`metadataSuccess`: each node optional, matching the regex scan over the
child nodes of the document root. -/
structure CapabilitiesDocument where
  format : Option TileFormatNode := none
  tilesets : Option TilesetsNode := none
  bbox : Option BBoxNode := none

/-- Outcomes on which `metadataSuccess` does not produce a ready provider.
`crash` models a JavaScript TypeError from attribute access on an absent
node (the exception escapes the callback; the ready promise is never
settled).  `unsupportedProfile` models the handled fatal path that rejects
the ready promise with the given message. -/
inductive ResolveError where
  | crash
  | unsupportedProfile (message : String)
deriving DecidableEq, Repr

/-- The provider state once ready: the fields assigned by metadata
resolution.  `maximumLevel` stays `none` on the fallback path when no
override was given (no ceiling). -/
structure ResolvedConfig where
  fileExtension : String
  tileWidth : Int
  tileHeight : Int
  minimumLevel : Int
  maximumLevel : Option Int
  tilingScheme : TilingScheme
  rectangle : Rectangle

/-- Modelled from the spec: `joinUrls` (external collaborator from Core):
the two parts joined with a single slash (bases are taken without a
trailing slash, which the collaborator would tolerate by dropping it). -/
def joinUrls (base path : String) : String :=
  base ++ "/" ++ path

/-- The profile values that use the legacy flipped-axis convention:
`flipXY` is set iff the profile is `geodetic` or `mercator` (source lines
173-176). -/
def flipXYFor (profile : String) : Bool :=
  profile == "geodetic" || profile == "mercator"

/-- The message built for an unsupported profile attribute (source line
184). -/
def unsupportedProfileMessage (url profile : String) : String :=
  joinUrls url "tilemapresource.xml" ++
    "specifies an unsupported profile attribute, " ++ profile ++ "."

/-- Tiling scheme selection (source lines 178-189): a caller-supplied
scheme wins; otherwise the profile picks the Geographic or WebMercator
default, and any other profile is the fatal unsupported-profile path. -/
def selectTilingScheme (env : SchemeEnv) (options : ProviderOptions)
    (url profile : String) : Except ResolveError TilingScheme :=
  match options.tilingScheme with
  | some s => .ok s
  | none =>
    if profile == "geodetic" || profile == "global-geodetic" then
      .ok (env.mkGeographicScheme options.ellipsoid)
    else if profile == "mercator" || profile == "global-mercator" then
      .ok (env.mkWebMercatorScheme options.ellipsoid)
    else
      .error (.unsupportedProfile (unsupportedProfileMessage url profile))

/-- Rectangle derivation from the bounding box node (source lines 200-221):
with `flipXY` the attributes are degrees with the axis roles swapped;
otherwise minx/miny and maxx/maxy are degrees for a Geographic scheme and
projected coordinates to unproject for any other scheme. -/
def deriveRectangle (tilingScheme : TilingScheme) (flipXY : Bool)
    (bbox : BBoxNode) : Rectangle :=
  if flipXY then
    let sw := Cartographic.fromDegrees bbox.miny bbox.minx
    let ne := Cartographic.fromDegrees bbox.maxy bbox.maxx
    ⟨sw.longitude, sw.latitude, ne.longitude, ne.latitude⟩
  else if tilingScheme.isGeographic then
    let sw := Cartographic.fromDegrees bbox.minx bbox.miny
    let ne := Cartographic.fromDegrees bbox.maxx bbox.maxy
    ⟨sw.longitude, sw.latitude, ne.longitude, ne.latitude⟩
  else
    let sw := tilingScheme.unproject (bbox.minx, bbox.miny)
    let ne := tilingScheme.unproject (bbox.maxx, bbox.maxy)
    ⟨sw.longitude, sw.latitude, ne.longitude, ne.latitude⟩

/-- Rectangle selection (source lines 194-222): a caller-supplied rectangle
wins; otherwise it is derived from the bounding box node, whose absence is
an attribute access on an undefined node. -/
def pickRectangle (options : ProviderOptions) (tilingScheme : TilingScheme)
    (flipXY : Bool) (bbox : Option BBoxNode) : Except ResolveError Rectangle :=
  match options.rectangle with
  | some r => .ok r
  | none =>
    match bbox with
    | none => .error .crash
    | some b => .ok (deriveRectangle tilingScheme flipXY b)

/-- Edge-wise clamp of the rectangle to the scheme rectangle (source lines
226-237): west and south are raised to the scheme minimum, east and north
lowered to the scheme maximum, each edge independently. -/
def clampRect (r bound : Rectangle) : Rectangle :=
  { west := if r.west < bound.west then bound.west else r.west
    east := if r.east > bound.east then bound.east else r.east
    south := if r.south < bound.south then bound.south else r.south
    north := if r.north > bound.north then bound.north else r.north }

/-- Number of tiles spanned by the rectangle corners at a level (source
lines 242-244): tile indices of the southwest and northeast corners, then
`(|dx| + 1) * (|dy| + 1)`. -/
def tileCountAt (tilingScheme : TilingScheme) (r : Rectangle)
    (level : Int) : Nat :=
  let swTile := tilingScheme.positionToTileXY ⟨r.west, r.south⟩ level
  let neTile := tilingScheme.positionToTileXY ⟨r.east, r.north⟩ level
  ((neTile.1 - swTile.1).natAbs + 1) * ((neTile.2 - swTile.2).natAbs + 1)

/-- Minimum-level relaxation heuristic (source lines 245-247): the minimum
level is replaced by 0 when the corner tile count at that level exceeds
four. -/
def relaxMinimumLevel (tilingScheme : TilingScheme) (r : Rectangle)
    (minimumLevel : Int) : Int :=
  if 4 < tileCountAt tilingScheme r minimumLevel then 0 else minimumLevel

/-- The metadata success callback (source lines 129-252).  Node extraction
is represented by the optional fields of `CapabilitiesDocument`; every
attribute read from an absent node (`format` when there is no TileFormat
node, the first or last entry of an empty TileSet list, the bounding box
when no rectangle override was given) is a `crash`, and it occurs before
any override is consulted, because `defaultValue` evaluates both arguments.
On success the resolved fields are: overrides first for the scalar fields,
the selected scheme, the clamped rectangle and the relaxed minimum
level. -/
def metadataSuccess (env : SchemeEnv) (options : ProviderOptions)
    (url : String) (xml : CapabilitiesDocument) :
    Except ResolveError ResolvedConfig :=
  match xml.format with
  | none => .error .crash
  | some format =>
    match xml.tilesets with
    | none => .error .crash
    | some tilesets =>
      match tilesets.orders with
      | [] => .error .crash
      | firstOrder :: rest =>
        match selectTilingScheme env options url tilesets.profile with
        | .error e => .error e
        | .ok tilingScheme =>
          match pickRectangle options tilingScheme
              (flipXYFor tilesets.profile) xml.bbox with
          | .error e => .error e
          | .ok rect0 =>
            let rect := clampRect rect0 tilingScheme.rectangle
            .ok {
              fileExtension := options.fileExtension.getD format.extension
              tileWidth := options.tileWidth.getD format.width
              tileHeight := options.tileHeight.getD format.height
              minimumLevel := relaxMinimumLevel tilingScheme rect
                (options.minimumLevel.getD firstOrder)
              maximumLevel := some (options.maximumLevel.getD
                ((firstOrder :: rest).getLastD firstOrder))
              tilingScheme := tilingScheme
              rectangle := rect }

/-- The metadata failure callback (source lines 254-265): overrides or the
documented defaults, a WebMercator scheme when none was supplied, the
scheme rectangle when no rectangle was supplied, and no ceiling on the
maximum level.  The relaxation heuristic and the clamp are not applied on
this path. -/
def metadataFailure (env : SchemeEnv) (options : ProviderOptions) :
    ResolvedConfig :=
  let tilingScheme :=
    match options.tilingScheme with
    | some s => s
    | none => env.mkWebMercatorScheme options.ellipsoid
  { fileExtension := options.fileExtension.getD "png"
    tileWidth := options.tileWidth.getD 256
    tileHeight := options.tileHeight.getD 256
    minimumLevel := options.minimumLevel.getD 0
    maximumLevel := options.maximumLevel
    tilingScheme := tilingScheme
    rectangle := options.rectangle.getD tilingScheme.rectangle }

/-- The provider fields read by `buildImageUrl`. -/
structure ProviderState where
  url : String
  fileExtension : String
  tilingScheme : TilingScheme
  proxy : Option (String → String) := none

/-- The tile addresser (source lines 280-290): row count at the level from
the scheme, the Y-flip `yTiles - y - 1`, the joined path
`level/x/flippedRow.extension`, then optional proxy rewriting. -/
def buildImageUrl (imageryProvider : ProviderState) (x y level : Int) :
    String :=
  let yTiles := imageryProvider.tilingScheme.getNumberOfYTilesAtLevel level
  let url := joinUrls imageryProvider.url
    (toString level ++ "/" ++ toString x ++ "/" ++
      toString (yTiles - y - 1) ++ "." ++ imageryProvider.fileExtension)
  match imageryProvider.proxy with
  | some proxy => proxy url
  | none => url

/-! Concrete fixtures used by witnesses and counterexamples. -/

/-- A tiling scheme with trivially computable collaborator functions. -/
def constScheme (rect : Rectangle) (geo : Bool) : TilingScheme :=
  { rectangle := rect
    isGeographic := geo
    unproject := fun q => ⟨q.1, q.2⟩
    positionToTileXY := fun _ _ => (0, 0)
    getNumberOfYTilesAtLevel := fun _ => 4 }

/-- Scheme environment whose default constructors return trivial schemes. -/
def trivialEnv : SchemeEnv :=
  { mkGeographicScheme := fun _ => constScheme ⟨-3, -2, 3, 2⟩ true
    mkWebMercatorScheme := fun _ => constScheme ⟨-3, -3, 3, 3⟩ false }

/-- Options with no override supplied. -/
def emptyOptions : ProviderOptions := {}

/-- A scheme whose corner tile indices span a 2 by 2 block on the unit
rectangle. -/
def quadScheme : TilingScheme :=
  { rectangle := ⟨-10, -10, 10, 10⟩
    isGeographic := false
    unproject := fun q => ⟨q.1, q.2⟩
    positionToTileXY := fun c _ =>
      (if c.longitude ≤ 0 then 0 else 1, if c.latitude ≤ 0 then 0 else 1)
    getNumberOfYTilesAtLevel := fun _ => 4 }

/-- A scheme whose corner tile indices span a 3 by 3 block on the unit
rectangle. -/
def nineScheme : TilingScheme :=
  { rectangle := ⟨-10, -10, 10, 10⟩
    isGeographic := false
    unproject := fun q => ⟨q.1, q.2⟩
    positionToTileXY := fun c _ =>
      (if c.longitude ≤ 0 then 0 else 2, if c.latitude ≤ 0 then 0 else 2)
    getNumberOfYTilesAtLevel := fun _ => 4 }

/-- The rectangle from -1 to 1 on both axes. -/
def unitRect : Rectangle := ⟨-1, -1, 1, 1⟩

/-- Concrete provider state for exercising the tile addresser. -/
def addressProvider : ProviderState :=
  { url := "base"
    fileExtension := "png"
    tilingScheme := constScheme ⟨-3, -3, 3, 3⟩ false
    proxy := none }

/-- Document with a tilesets node but no tileformat node. -/
def docMissingFormat : CapabilitiesDocument :=
  { format := none
    tilesets := some ⟨"geodetic", [0]⟩
    bbox := some ⟨0, 0, 1, 1⟩ }

/-- Sample bounding box node with minx 10, miny 20, maxx 30, maxy 40. -/
def sampleBBox : BBoxNode := ⟨10, 20, 30, 40⟩

/-- Non-Geographic scheme whose unprojection shifts by (100, 200). -/
def shiftScheme : TilingScheme :=
  { rectangle := ⟨-10, -10, 10, 10⟩
    isGeographic := false
    unproject := fun q => ⟨q.1 + 100, q.2 + 200⟩
    positionToTileXY := fun _ _ => (0, 0)
    getNumberOfYTilesAtLevel := fun _ => 4 }

/-- Observer telling whether a resolution outcome is the handled
unsupported-profile rejection. -/
def isProfileRejection : Except ResolveError ResolvedConfig → Bool
  | .error (.unsupportedProfile _) => true
  | _ => false

/-- A Geographic-flavored scheme bounded by the 0..10 square. -/
def boundedScheme : TilingScheme := constScheme ⟨0, 0, 10, 10⟩ true

/-- A well-formed document: tileformat, two tilesets, bounding box. -/
def plainDoc : CapabilitiesDocument :=
  { format := some ⟨"png", 256, 256⟩
    tilesets := some ⟨"global-geodetic", [0, 3]⟩
    bbox := some ⟨0, 0, 1, 1⟩ }

/-- Overrides supplying a rectangle that exceeds the scheme rectangle. -/
def overrideOpts : ProviderOptions :=
  { rectangle := some ⟨-5, -5, 20, 20⟩
    tilingScheme := some boundedScheme }

/-- Overrides supplying every field. -/
def fullOpts : ProviderOptions :=
  { fileExtension := some "jpg"
    tileWidth := some 64
    tileHeight := some 128
    minimumLevel := some 1
    maximumLevel := some 7
    rectangle := some ⟨1, 1, 2, 2⟩
    tilingScheme := some boundedScheme
    ellipsoid := none }

/-- The configuration resolved from `fullOpts` and `plainDoc`. -/
def witnessCfg : ResolvedConfig :=
  { fileExtension := "jpg"
    tileWidth := 64
    tileHeight := 128
    minimumLevel := 1
    maximumLevel := some 7
    tilingScheme := boundedScheme
    rectangle := ⟨1, 1, 2, 2⟩ }

/-- Overrides supplying a rectangle whose west edge exceeds its east
edge. -/
def outOfOrderOpts : ProviderOptions :=
  { rectangle := some ⟨200, 0, 5, 1⟩
    tilingScheme := some boundedScheme }

/-- A rectangle inside the 0..10 square. -/
def testRect : Rectangle := ⟨1, 1, 8, 9⟩

/-- The 0..10 square as a clamp bound. -/
def testBound : Rectangle := ⟨0, 0, 10, 10⟩

/-- Overrides supplying only a tiling scheme. -/
def anyProfileOpts : ProviderOptions := { tilingScheme := some boundedScheme }

/-- Document with an unrecognized profile and no tileformat node. -/
def docWeirdNoFormat : CapabilitiesDocument :=
  { format := none
    tilesets := some ⟨"strange-profile", [0]⟩
    bbox := some ⟨0, 0, 1, 1⟩ }

/-- Well-formed document with an unrecognized profile. -/
def docWeirdOk : CapabilitiesDocument :=
  { format := some ⟨"png", 256, 256⟩
    tilesets := some ⟨"strange-profile", [1, 5]⟩
    bbox := some ⟨0, 0, 1, 1⟩ }

/-- Document with profile unknown-value and no tileformat node. -/
def docUnknownProfileNoFormat : CapabilitiesDocument :=
  { format := none
    tilesets := some ⟨"unknown-value", [0]⟩
    bbox := some ⟨0, 0, 1, 1⟩ }

/-- Well-formed document with profile unknown-value. -/
def docUnknownProfile : CapabilitiesDocument :=
  { format := some ⟨"png", 256, 256⟩
    tilesets := some ⟨"unknown-value", [1, 3]⟩
    bbox := some ⟨0, 0, 1, 1⟩ }

/-! Helper lemmas shared by the claim theorems. -/

theorem stringAppendAssoc (a b c : String) : a ++ b ++ c = a ++ (b ++ c) :=
  String.ext (by simp)

theorem pickRectangle_error_eq {options : ProviderOptions}
    {tilingScheme : TilingScheme} {flipXY : Bool} {bbox : Option BBoxNode}
    {e : ResolveError}
    (h : pickRectangle options tilingScheme flipXY bbox = .error e) :
    e = .crash := by
  unfold pickRectangle at h
  split at h
  · simp at h
  · split at h
    · injection h with h
      exact h.symm
    · simp at h

theorem selectTilingScheme_override {env : SchemeEnv}
    {options : ProviderOptions} {url profile : String} {s : TilingScheme}
    (h : options.tilingScheme = some s) :
    selectTilingScheme env options url profile = .ok s := by
  unfold selectTilingScheme
  rw [h]

theorem metadataSuccess_ok_elim {env : SchemeEnv} {options : ProviderOptions}
    {url : String} {xml : CapabilitiesDocument} {cfg : ResolvedConfig}
    (h : metadataSuccess env options url xml = .ok cfg) :
    ∃ format tilesets firstOrder rest rect0,
      xml.format = some format ∧
      xml.tilesets = some tilesets ∧
      tilesets.orders = firstOrder :: rest ∧
      selectTilingScheme env options url tilesets.profile =
        .ok cfg.tilingScheme ∧
      pickRectangle options cfg.tilingScheme (flipXYFor tilesets.profile)
        xml.bbox = .ok rect0 ∧
      cfg.rectangle = clampRect rect0 cfg.tilingScheme.rectangle ∧
      cfg.minimumLevel = relaxMinimumLevel cfg.tilingScheme cfg.rectangle
        (options.minimumLevel.getD firstOrder) ∧
      cfg.fileExtension = options.fileExtension.getD format.extension ∧
      cfg.tileWidth = options.tileWidth.getD format.width ∧
      cfg.tileHeight = options.tileHeight.getD format.height ∧
      cfg.maximumLevel = some (options.maximumLevel.getD
        ((firstOrder :: rest).getLastD firstOrder)) := by
  unfold metadataSuccess at h
  split at h
  · exact absurd h (by simp)
  next format hformat =>
    split at h
    · exact absurd h (by simp)
    next tilesets htilesets =>
      split at h
      · exact absurd h (by simp)
      next firstOrder rest horders =>
        split at h
        · exact absurd h (by simp)
        next tilingScheme hscheme =>
          split at h
          · exact absurd h (by simp)
          next rect0 hrect =>
            injection h with h
            subst h
            exact ⟨format, tilesets, firstOrder, rest, rect0, hformat,
              htilesets, horders, hscheme, hrect, rfl, rfl, rfl, rfl, rfl,
              rfl⟩

/-! Claim theorems. -/

/-- C1: for a ready provider with no proxy, the tile addresser produces
exactly `base/level/column/flippedRow.extension` with
`flippedRow = rowsAtLevel - row - 1`; with 4 rows, row 0 maps to flipped
row 3 and row 3 to flipped row 0, and flipping an already flipped row over
the same row count restores the original row in the produced path. -/
theorem buildImageUrl_flips_row (p : ProviderState) (x y level rows : Int)
    (hproxy : p.proxy = none)
    (hrows : p.tilingScheme.getNumberOfYTilesAtLevel level = rows) :
    (buildImageUrl p x y level =
      p.url ++ "/" ++ toString level ++ "/" ++ toString x ++ "/" ++
        toString (rows - y - 1) ++ "." ++ p.fileExtension) ∧
    (rows = 4 →
      buildImageUrl p x 0 level =
        p.url ++ "/" ++ toString level ++ "/" ++ toString x ++ "/" ++
          "3" ++ "." ++ p.fileExtension ∧
      buildImageUrl p x 3 level =
        p.url ++ "/" ++ toString level ++ "/" ++ toString x ++ "/" ++
          "0" ++ "." ++ p.fileExtension) ∧
    (buildImageUrl p x (rows - y - 1) level =
      p.url ++ "/" ++ toString level ++ "/" ++ toString x ++ "/" ++
        toString y ++ "." ++ p.fileExtension) := by
  have key : ∀ z : Int, buildImageUrl p x z level =
      p.url ++ "/" ++ toString level ++ "/" ++ toString x ++ "/" ++
        toString (rows - z - 1) ++ "." ++ p.fileExtension := by
    intro z
    simp only [buildImageUrl, joinUrls, hproxy, hrows]
    simp [stringAppendAssoc]
  refine ⟨key y, fun h4 => ⟨?_, ?_⟩, ?_⟩
  · rw [key 0, h4]
    have harith : (4 : Int) - 0 - 1 = 3 := by norm_num
    rw [harith]
    rfl
  · rw [key 3, h4]
    have harith : (4 : Int) - 3 - 1 = 0 := by norm_num
    rw [harith]
    rfl
  · rw [key (rows - y - 1)]
    have harith : rows - (rows - y - 1) - 1 = y := by ring
    rw [harith]

/-- Witness for C1 at a concrete provider, tile address and row count. -/
theorem buildImageUrl_flips_row_witness :
    addressProvider.proxy = none ∧
    addressProvider.tilingScheme.getNumberOfYTilesAtLevel 2 = 4 ∧
    buildImageUrl addressProvider 1 0 2 = "base/2/1/3.png" := by
  refine ⟨rfl, rfl, ?_⟩
  have h := buildImageUrl_flips_row addressProvider 1 0 2 4 rfl rfl
  rw [h.1]
  rfl

/-- C4: when the capabilities document is unreachable, resolution succeeds
with exactly the fallback defaults when no override is supplied: extension
png, 256 by 256 tiles, minimum level 0, no maximum level, the constructed
WebMercator scheme and its full rectangle; and the minimum level is
whatever the override or default says, for every option set, so the
relaxation heuristic is never applied on this path. -/
theorem metadataFailure_defaults (env : SchemeEnv) :
    ((metadataFailure env emptyOptions).fileExtension = "png" ∧
     (metadataFailure env emptyOptions).tileWidth = 256 ∧
     (metadataFailure env emptyOptions).tileHeight = 256 ∧
     (metadataFailure env emptyOptions).minimumLevel = 0 ∧
     (metadataFailure env emptyOptions).maximumLevel = none ∧
     (metadataFailure env emptyOptions).tilingScheme =
       env.mkWebMercatorScheme none ∧
     (metadataFailure env emptyOptions).rectangle =
       (env.mkWebMercatorScheme none).rectangle) ∧
    (∀ options : ProviderOptions,
      (metadataFailure env options).minimumLevel =
        options.minimumLevel.getD 0) :=
  ⟨⟨rfl, rfl, rfl, rfl, rfl, rfl, rfl⟩, fun _ => rfl⟩

/-- C5: the minimum-level relaxation resets the minimum level to 0 when the
corner tile count at that level exceeds four, leaves it unchanged at a
count of at most four (in particular at exactly four), and for a nonzero
minimum level the result is 0 exactly when the count exceeds four. -/
theorem relaxMinimumLevel_boundary (tilingScheme : TilingScheme)
    (r : Rectangle) (m : Int) :
    (4 < tileCountAt tilingScheme r m →
      relaxMinimumLevel tilingScheme r m = 0) ∧
    (tileCountAt tilingScheme r m ≤ 4 →
      relaxMinimumLevel tilingScheme r m = m) ∧
    (tileCountAt tilingScheme r m = 4 →
      relaxMinimumLevel tilingScheme r m = m) ∧
    (m ≠ 0 →
      (relaxMinimumLevel tilingScheme r m = 0 ↔
        4 < tileCountAt tilingScheme r m)) := by
  refine ⟨fun h => ?_, fun h => ?_, fun h => ?_, fun hm => ?_⟩
  · simp [relaxMinimumLevel, h]
  · simp [relaxMinimumLevel, Nat.not_lt.mpr h]
  · simp [relaxMinimumLevel, h]
  · unfold relaxMinimumLevel
    split
    next h => simp [h]
    next h => simp [hm, h]

/-- Witness for C5: a span of exactly four tiles leaves the minimum level
unchanged, a span of nine tiles resets it to 0. -/
theorem relaxMinimumLevel_boundary_witness :
    tileCountAt quadScheme unitRect 2 = 4 ∧
    relaxMinimumLevel quadScheme unitRect 2 = 2 ∧
    4 < tileCountAt nineScheme unitRect 2 ∧
    relaxMinimumLevel nineScheme unitRect 2 = 0 := by
  refine ⟨by decide, ?_, by decide, ?_⟩
  · exact (relaxMinimumLevel_boundary quadScheme unitRect 2).2.2.1
      (by decide)
  · exact (relaxMinimumLevel_boundary nineScheme unitRect 2).1 (by decide)

/-- C9: a document that is present but lacks a tileformat node makes
resolution fail when the overrides do not supply every scalar field; the
failure is the crash of attribute extraction on the absent node. -/
theorem missingTileFormat_crash (env : SchemeEnv)
    (options : ProviderOptions) (url : String)
    (xml : CapabilitiesDocument)
    (hformat : xml.format = none)
    (_hincomplete : options.fileExtension = none ∨
      options.tileWidth = none ∨ options.tileHeight = none) :
    metadataSuccess env options url xml = .error .crash := by
  unfold metadataSuccess
  rw [hformat]

/-- Witness for C9 on a concrete document with no tileformat node. -/
theorem missingTileFormat_crash_witness :
    docMissingFormat.format = none ∧
    emptyOptions.fileExtension = none ∧
    metadataSuccess trivialEnv emptyOptions "u" docMissingFormat =
      .error .crash :=
  ⟨rfl, rfl,
    missingTileFormat_crash trivialEnv emptyOptions "u" docMissingFormat
      rfl (Or.inl rfl)⟩

/-- C6: for the flipped profiles (geodetic, mercator) the rectangle derived
from the bounding box swaps the axis roles, reading the southwest corner as
longitude miny and latitude minx and the northeast corner as longitude maxy
and latitude maxx, all converted from degrees to radians; and flipXY is
true exactly for the profiles geodetic and mercator. -/
theorem deriveRectangle_flipped (tilingScheme : TilingScheme)
    (bbox : BBoxNode) (p : String)
    (hp : p = "geodetic" ∨ p = "mercator") :
    deriveRectangle tilingScheme (flipXYFor p) bbox =
      ⟨toRadians bbox.miny, toRadians bbox.minx,
        toRadians bbox.maxy, toRadians bbox.maxx⟩ ∧
    (∀ q : String, flipXYFor q = true ↔
      (q = "geodetic" ∨ q = "mercator")) := by
  have hflip : ∀ q : String, flipXYFor q = true ↔
      (q = "geodetic" ∨ q = "mercator") := by
    intro q
    simp [flipXYFor]
  constructor
  · have : flipXYFor p = true := (hflip p).mpr hp
    simp [deriveRectangle, this, Cartographic.fromDegrees]
  · exact hflip

/-- Witness for C6 at profile mercator on a concrete bounding box. -/
theorem deriveRectangle_flipped_witness :
    deriveRectangle shiftScheme (flipXYFor "mercator") sampleBBox =
      ⟨toRadians 20, toRadians 10, toRadians 40, toRadians 30⟩ ∧
    flipXYFor "mercator" = true :=
  ⟨(deriveRectangle_flipped shiftScheme sampleBBox "mercator"
      (Or.inr rfl)).1,
    rfl⟩

/-- C7: with flipXY false and a scheme that is not Geographic (the
global-mercator case), the derived rectangle is the unprojection of the raw
points (minx, miny) and (maxx, maxy) with no axis swap, while a Geographic
scheme reads the same raw points directly as degrees; and the
global-mercator profile does not flip the axes. -/
theorem deriveRectangle_unflipped (tilingScheme : TilingScheme)
    (bbox : BBoxNode) :
    (tilingScheme.isGeographic = false →
      deriveRectangle tilingScheme false bbox =
        ⟨(tilingScheme.unproject (bbox.minx, bbox.miny)).longitude,
          (tilingScheme.unproject (bbox.minx, bbox.miny)).latitude,
          (tilingScheme.unproject (bbox.maxx, bbox.maxy)).longitude,
          (tilingScheme.unproject (bbox.maxx, bbox.maxy)).latitude⟩) ∧
    (tilingScheme.isGeographic = true →
      deriveRectangle tilingScheme false bbox =
        ⟨toRadians bbox.minx, toRadians bbox.miny,
          toRadians bbox.maxx, toRadians bbox.maxy⟩) ∧
    flipXYFor "global-mercator" = false := by
  refine ⟨fun hg => ?_, fun hg => ?_, rfl⟩
  · simp [deriveRectangle, hg]
  · simp [deriveRectangle, hg, Cartographic.fromDegrees]

/-- Witness for C7 on a concrete projected scheme and bounding box. -/
theorem deriveRectangle_unflipped_witness :
    shiftScheme.isGeographic = false ∧
    deriveRectangle shiftScheme false sampleBBox =
      ⟨110, 220, 130, 240⟩ := by
  refine ⟨rfl, ?_⟩
  have h := (deriveRectangle_unflipped shiftScheme sampleBBox).1 rfl
  rw [h]
  simp only [shiftScheme, sampleBBox]
  norm_num [Rectangle.mk.injEq]

/-- C2 counterexample: with a rectangle override wider than the scheme
rectangle, resolution succeeds but the resolved rectangle is the clamped
one, not the override verbatim. -/
theorem override_precedence_cex :
    overrideOpts.rectangle = some ⟨-5, -5, 20, 20⟩ ∧
    (metadataSuccess trivialEnv overrideOpts "u" plainDoc).toOption.map
      (fun c => c.rectangle) = some ⟨0, 0, 10, 10⟩ ∧
    ((⟨0, 0, 10, 10⟩ : Rectangle) ≠ ⟨-5, -5, 20, 20⟩) := by
  refine ⟨rfl, rfl, by decide⟩

/-- C2 amended: on a successful resolution, the fileExtension, tileWidth,
tileHeight, maximumLevel and tilingScheme overrides are used verbatim over
any document content; the rectangle override is used instead of the
document bounding box but then clamped to the scheme rectangle, and the
minimumLevel override is used instead of the first tileset order but then
subject to the minimum-level relaxation. -/
theorem override_precedence_amended (env : SchemeEnv)
    (opts : ProviderOptions) (url : String) (xml : CapabilitiesDocument)
    (cfg : ResolvedConfig)
    (h : metadataSuccess env opts url xml = .ok cfg) :
    (∀ e, opts.fileExtension = some e → cfg.fileExtension = e) ∧
    (∀ w, opts.tileWidth = some w → cfg.tileWidth = w) ∧
    (∀ t, opts.tileHeight = some t → cfg.tileHeight = t) ∧
    (∀ m, opts.maximumLevel = some m → cfg.maximumLevel = some m) ∧
    (∀ s, opts.tilingScheme = some s → cfg.tilingScheme = s) ∧
    (∀ r, opts.rectangle = some r →
      cfg.rectangle = clampRect r cfg.tilingScheme.rectangle) ∧
    (∀ m, opts.minimumLevel = some m →
      cfg.minimumLevel =
        relaxMinimumLevel cfg.tilingScheme cfg.rectangle m) := by
  obtain ⟨format, tilesets, o, os, rect0, hf, ht, ho, hsel, hpick, hrect,
    hmin, hext, hw, hh, hmax⟩ := metadataSuccess_ok_elim h
  refine ⟨fun e he => ?_, fun w hw2 => ?_, fun t ht2 => ?_,
    fun m hm2 => ?_, fun s hs2 => ?_, fun r hr2 => ?_, fun m hm2 => ?_⟩
  · rw [hext, he]; rfl
  · rw [hw, hw2]; rfl
  · rw [hh, ht2]; rfl
  · rw [hmax, hm2]; rfl
  · rw [selectTilingScheme_override hs2] at hsel
    injection hsel with hsel
    exact hsel.symm
  · simp only [pickRectangle, hr2] at hpick
    injection hpick with hpick
    subst hpick
    exact hrect
  · rw [hmin, hm2]; rfl

/-- Witness for the amended C2 on concrete full overrides. -/
theorem override_precedence_amended_witness :
    fullOpts.fileExtension = some "jpg" ∧
    witnessCfg.fileExtension = "jpg" ∧
    witnessCfg.tilingScheme = boundedScheme ∧
    witnessCfg.rectangle =
      clampRect ⟨1, 1, 2, 2⟩ witnessCfg.tilingScheme.rectangle ∧
    witnessCfg.minimumLevel =
      relaxMinimumLevel witnessCfg.tilingScheme witnessCfg.rectangle 1 := by
  have h : metadataSuccess trivialEnv fullOpts "u" plainDoc =
      .ok witnessCfg := by rfl
  have hc := override_precedence_amended trivialEnv fullOpts "u" plainDoc
    witnessCfg h
  exact ⟨rfl, hc.1 "jpg" rfl, hc.2.2.2.2.1 boundedScheme rfl,
    hc.2.2.2.2.2.1 ⟨1, 1, 2, 2⟩ rfl, hc.2.2.2.2.2.2 1 rfl⟩

/-- C3 counterexample: a document whose tilesets profile is unsupported but
which lacks a tileformat node fails with the attribute-access crash, not
with the unsupported-profile rejection, so no error message names the
profile and the ready promise is never rejected. -/
theorem unsupported_profile_cex :
    docUnknownProfileNoFormat.tilesets = some ⟨"unknown-value", [0]⟩ ∧
    emptyOptions.tilingScheme = none ∧
    metadataSuccess trivialEnv emptyOptions "u" docUnknownProfileNoFormat =
      .error .crash ∧
    isProfileRejection
      (metadataSuccess trivialEnv emptyOptions "u"
        docUnknownProfileNoFormat) = false :=
  ⟨rfl, rfl, rfl, rfl⟩

/-- C3 amended: for a document that also has a tileformat node and at least
one tileset entry, an unsupported profile with no tilingScheme override
resolves to the fatal unsupported-profile rejection whose message names the
offending profile (the provider never becomes ready); with a missing
tileformat node or empty tileset list the failure is the earlier crash
instead. -/
theorem unsupported_profile_fatal (env : SchemeEnv)
    (opts : ProviderOptions) (url : String) (xml : CapabilitiesDocument)
    (format : TileFormatNode) (tilesets : TilesetsNode) (o : Int)
    (os : List Int)
    (hformat : xml.format = some format)
    (htilesets : xml.tilesets = some tilesets)
    (horders : tilesets.orders = o :: os)
    (hscheme : opts.tilingScheme = none)
    (h1 : tilesets.profile ≠ "geodetic")
    (h2 : tilesets.profile ≠ "global-geodetic")
    (h3 : tilesets.profile ≠ "mercator")
    (h4 : tilesets.profile ≠ "global-mercator") :
    metadataSuccess env opts url xml =
      .error (.unsupportedProfile
        (unsupportedProfileMessage url tilesets.profile)) := by
  have hsel : selectTilingScheme env opts url tilesets.profile =
      .error (.unsupportedProfile
        (unsupportedProfileMessage url tilesets.profile)) := by
    unfold selectTilingScheme
    rw [hscheme]
    simp [h1, h2, h3, h4]
  unfold metadataSuccess
  simp only [hformat, htilesets, horders, hsel]

/-- Witness for the amended C3 on a concrete well-formed document with
profile unknown-value, evaluating the message. -/
theorem unsupported_profile_fatal_witness :
    docUnknownProfile.format = some ⟨"png", 256, 256⟩ ∧
    emptyOptions.tilingScheme = none ∧
    metadataSuccess trivialEnv emptyOptions "u" docUnknownProfile =
      .error (.unsupportedProfile
        ("u/tilemapresource.xml" ++
          "specifies an unsupported profile attribute, unknown-value.")) := by
  refine ⟨rfl, rfl, ?_⟩
  have h := unsupported_profile_fatal trivialEnv emptyOptions "u"
    docUnknownProfile ⟨"png", 256, 256⟩ ⟨"unknown-value", [1, 3]⟩ 1 [3]
    rfl rfl rfl rfl (by decide) (by decide) (by decide) (by decide)
  rw [h]
  rfl

/-- C8 counterexample: a successful resolution whose rectangle has its west
edge (200) beyond both its east edge (5) and the scheme east bound (10), so
the resolved rectangle is neither ordered nor inside the scheme
rectangle. -/
theorem rectangle_invariant_cex :
    (metadataSuccess trivialEnv outOfOrderOpts "u" plainDoc).toOption.map
      (fun c => c.rectangle) = some ⟨200, 0, 5, 1⟩ ∧
    boundedScheme.rectangle.east = 10 ∧
    ¬ ((200 : ℚ) ≤ 5) ∧
    ¬ ((200 : ℚ) ≤ 10) := by
  refine ⟨rfl, rfl, by norm_num, by norm_num⟩

/-- C8 amended: every successfully resolved rectangle is the edge-wise
clamp of some pre-clamp rectangle to the scheme rectangle; the clamp only
raises west and south and only lowers east and north, each edge
independently and never past the corresponding bound; and when in addition
the pre-clamp rectangle is ordered and meets the ordered bound edge-wise,
the clamped rectangle is ordered and lies within the bound. -/
theorem rectangle_clamp_amended :
    (∀ (env : SchemeEnv) (opts : ProviderOptions) (url : String)
        (xml : CapabilitiesDocument) (cfg : ResolvedConfig),
      metadataSuccess env opts url xml = .ok cfg →
      ∃ rect0, cfg.rectangle = clampRect rect0 cfg.tilingScheme.rectangle) ∧
    (∀ r bound : Rectangle,
      r.west ≤ (clampRect r bound).west ∧
      bound.west ≤ (clampRect r bound).west ∧
      (clampRect r bound).east ≤ r.east ∧
      (clampRect r bound).east ≤ bound.east ∧
      r.south ≤ (clampRect r bound).south ∧
      bound.south ≤ (clampRect r bound).south ∧
      (clampRect r bound).north ≤ r.north ∧
      (clampRect r bound).north ≤ bound.north) ∧
    (∀ r bound : Rectangle,
      bound.west ≤ bound.east → bound.south ≤ bound.north →
      r.west ≤ r.east → r.south ≤ r.north →
      r.west ≤ bound.east → bound.west ≤ r.east →
      r.south ≤ bound.north → bound.south ≤ r.north →
      ((clampRect r bound).west ≤ (clampRect r bound).east ∧
       (clampRect r bound).south ≤ (clampRect r bound).north)) := by
  refine ⟨fun env opts url xml cfg h => ?_, fun r bound => ?_,
    fun r bound hb1 hb2 hr1 hr2 ho1 ho2 ho3 ho4 => ?_⟩
  · obtain ⟨_, _, _, _, rect0, _, _, _, _, _, hrect, _⟩ :=
      metadataSuccess_ok_elim h
    exact ⟨rect0, hrect⟩
  · refine ⟨?_, ?_, ?_, ?_, ?_, ?_, ?_, ?_⟩ <;>
      (dsimp only [clampRect]; split_ifs <;> linarith)
  · constructor <;> (dsimp only [clampRect]; split_ifs <;> linarith)

/-- Witness for the amended C8 on a concrete rectangle and bound. -/
theorem rectangle_clamp_amended_witness :
    (clampRect testRect testBound).west ≤ (clampRect testRect testBound).east ∧
    (clampRect testRect testBound).south ≤
      (clampRect testRect testBound).north := by
  exact rectangle_clamp_amended.2.2 testRect testBound (by decide)
    (by decide) (by decide) (by decide) (by decide) (by decide) (by decide)
    (by decide)

/-- C10 counterexample: with a tilingScheme override supplied, a document
that lacks a tileformat node still fails resolution (as a crash), so
resolution does not succeed for every document and profile. -/
theorem scheme_override_cex :
    anyProfileOpts.tilingScheme = some boundedScheme ∧
    (metadataSuccess trivialEnv anyProfileOpts "u" docWeirdNoFormat
      ).toOption = none ∧
    metadataSuccess trivialEnv anyProfileOpts "u" docWeirdNoFormat =
      .error .crash :=
  ⟨rfl, rfl, rfl⟩

/-- C10 amended: with a tilingScheme override the unsupported-profile fatal
branch is never reached for any document; resolution succeeds for any
profile string whenever the document has a tileformat node, a nonempty
tileset list and a bounding box (or a rectangle override); and flipXY is
true exactly for the profiles geodetic and mercator. -/
theorem scheme_override_no_profile_error :
    (∀ (env : SchemeEnv) (opts : ProviderOptions) (url : String)
        (xml : CapabilitiesDocument) (s : TilingScheme),
      opts.tilingScheme = some s →
      isProfileRejection (metadataSuccess env opts url xml) = false) ∧
    (∀ (env : SchemeEnv) (opts : ProviderOptions) (url : String)
        (xml : CapabilitiesDocument) (s : TilingScheme)
        (format : TileFormatNode) (tilesets : TilesetsNode) (o : Int)
        (os : List Int),
      opts.tilingScheme = some s →
      xml.format = some format →
      xml.tilesets = some tilesets →
      tilesets.orders = o :: os →
      (opts.rectangle.isSome || xml.bbox.isSome) = true →
      (metadataSuccess env opts url xml).toOption.isSome = true) ∧
    (∀ q : String, flipXYFor q = true ↔
      (q = "geodetic" ∨ q = "mercator")) := by
  refine ⟨?_, ?_, fun q => by simp [flipXYFor]⟩
  · intro env opts url xml s hs
    unfold metadataSuccess
    split
    · rfl
    · split
      · rfl
      · split
        · rfl
        · simp only [selectTilingScheme_override hs]
          split
          next e hp =>
            rw [pickRectangle_error_eq hp]
            rfl
          next rect0 hp => rfl
  · intro env opts url xml s format tilesets o os hs hf ht ho hbool
    unfold metadataSuccess
    simp only [hf, ht, ho, selectTilingScheme_override hs]
    cases hr : opts.rectangle with
    | some r => simp [pickRectangle, hr, Except.toOption]
    | none =>
      cases hb : xml.bbox with
      | some b => simp [pickRectangle, hr, hb, Except.toOption]
      | none =>
        rw [hr, hb] at hbool
        simp at hbool

/-- Witness for the amended C10 on a well-formed document with an
unrecognized profile and a scheme override. -/
theorem scheme_override_no_profile_error_witness :
    isProfileRejection
      (metadataSuccess trivialEnv anyProfileOpts "u" docWeirdOk) = false ∧
    (metadataSuccess trivialEnv anyProfileOpts "u" docWeirdOk
      ).toOption.isSome = true :=
  ⟨scheme_override_no_profile_error.1 trivialEnv anyProfileOpts "u"
      docWeirdOk boundedScheme rfl,
    scheme_override_no_profile_error.2.1 trivialEnv anyProfileOpts "u"
      docWeirdOk boundedScheme ⟨"png", 256, 256⟩ ⟨"strange-profile", [1, 5]⟩
      1 [5] rfl rfl rfl rfl rfl⟩

end TMS
